import Mathlib

/-!
Verification development for the steamautomatic scan-filter-decide-execute
pipeline.  The definitions below are shallow embeddings of the Python source:

* `invest_step` / `execute_investment_loop` embed the candidate loop of
  `UUAutoInvest.execute_investment` (src/plugins/UUAutoInvest.py, lines 655-808).
  Remote calls (`get_item_details_from_uu`, `publish_purchase_order`) are
  modelled by per-candidate environment values (`CandEnv`) that record what the
  remote side answered; sleeps and log output are irrelevant to the properties
  and are dropped.
* `perform_bind` / `check_state` / `bind_local_ip` / `get_item_details` embed
  the CSQAQ bind state machine of `CSQAQScanner` (src/plugins/Scanner.py).
* `get_lease_stability` / `scan_process_item` / `assign_tier` embed the
  per-record filtering and tiering of `CSQAQScanner.run_scan`.
* `calculate_stability_score` / `analyze_item` / `hunt_process_item` embed
  `ItemHunter` (src/plugins/Hunter.py).

Python floats are modelled by `ℚ` (exactly representable decimal data), except
for the standard deviation based volatility values, where `x ** 0.5` /
`statistics.stdev` force `Real.sqrt`.
-/

/-- Banker's rounding of a rational to an integer, as Python's built-in
`round` does on the idealised (exact) reading of its float argument. -/
def roundHalfEven (x : ℚ) : ℤ :=
  let f : ℤ := ⌊x⌋
  let frac : ℚ := x - f
  if frac < 1/2 then f
  else if 1/2 < frac then f + 1
  else if f % 2 = 0 then f else f + 1

/-- Python's `round(x, 2)`. -/
def round2 (x : ℚ) : ℚ := (roundHalfEven (x * 100) : ℚ) / 100

/-- Configuration values read from `uu_auto_invest` in
`UUAutoInvest.execute_investment`. -/
structure InvestConfig where
  minPrice : ℚ
  maxPrice : ℚ
  maxOrders : ℕ
  buyPriceRatio : ℚ
  testMode : Bool

/-- One candidate dict as iterated by `execute_investment` (the fields the
loop body reads; `templateId`/`name` are carried for fidelity only). -/
structure InvestCandidate where
  templateId : String
  name : String
  fromWhitelist : Bool
  buy_limit : Option ℚ
  target_buy_price : Option ℚ
  yyyp_buy_price : Option ℚ
deriving DecidableEq

/-- The dict returned by `get_item_details_from_uu` on success. -/
structure ItemDetail where
  commodityName : String
  marketHashName : String
  lowestPrice : ℚ
deriving DecidableEq

/-- What `get_item_details_from_uu` yields for one candidate: `busy` is the
`(None, True)` risk-control answer, `failed` is `(None, False)`, `ok d` is a
detail dict, and `exn` is the code path where the helper's own `except` branch
returns a bare `None` whose unpacking raises in the caller (caught by the
outer `except`, leaving the loop state untouched). -/
inductive FetchResult where
  | busy
  | failed
  | ok (d : ItemDetail)
  | exn
deriving DecidableEq

/-- Result of `publish_purchase_order`: business success (`Code == 0`),
business failure, or a raised exception (caught by the inner `except`). -/
inductive OrderResult where
  | ok
  | fail
  | exn
deriving DecidableEq

/-- Environment for one candidate iteration: what the two remote calls
would answer. -/
structure CandEnv where
  fetch : FetchResult
  order : OrderResult
deriving DecidableEq

/-- Observable outcome of one candidate iteration of the loop body. -/
inductive Outcome where
  | busyResp
  | errored
  | noDetail
  | skipGate
  | skipBand
  | skipBalance
  | orderSuccess (price : ℚ)
  | orderFail (price : ℚ)
deriving DecidableEq

/-- The run-scoped mutable locals of `execute_investment`:
`success_count`, `busy_counter`, `current_balance`. -/
structure LoopState where
  successCount : ℕ
  busyCounter : ℕ
  balance : ℚ
deriving DecidableEq

/-- Python's `a or b` on two optional numbers (`None` and `0` are falsy). -/
def pyOrQ (a b : Option ℚ) : Option ℚ :=
  match a with
  | some x => if x = 0 then b else some x
  | none => b

/-- Target purchase price computation of `execute_investment`
(UUAutoInvest.py lines 714-737). -/
def compute_target_price (cfg : InvestConfig) (c : InvestCandidate) (lowestPrice : ℚ) : ℚ :=
  if c.fromWhitelist then
    match pyOrQ c.buy_limit c.target_buy_price with
    | some r => if r ≠ 0 ∧ 0 < r then r else round2 (lowestPrice * 0.92)
    | none => round2 (lowestPrice * 0.92)
  else
    let t := round2 (lowestPrice * cfg.buyPriceRatio)
    match c.yyyp_buy_price with
    | some b => if 0 < b ∧ b < t then round2 (b * 0.98) else t
    | none => t

/-- One iteration of the candidate loop of `execute_investment`
(UUAutoInvest.py lines 685-802), after the loop-top guards. -/
def invest_step (cfg : InvestConfig) (st : LoopState) (c : InvestCandidate) (e : CandEnv) :
    LoopState × Outcome :=
  match e.fetch with
  | .exn => (st, .errored)
  | .busy => ({ st with busyCounter := st.busyCounter + 1 }, .busyResp)
  | .failed => ({ st with busyCounter := 0 }, .noDetail)
  | .ok d =>
    let st1 := { st with busyCounter := 0 }
    let t := compute_target_price cfg c d.lowestPrice
    if d.lowestPrice ≤ t then (st1, .skipGate)
    else if ¬ (cfg.minPrice ≤ t ∧ t ≤ cfg.maxPrice) then (st1, .skipBand)
    else if st1.balance < t then (st1, .skipBalance)
    else if cfg.testMode then
      ({ st1 with balance := st1.balance - t, successCount := st1.successCount + 1 },
       .orderSuccess t)
    else
      match e.order with
      | .ok => ({ st1 with balance := st1.balance - t, successCount := st1.successCount + 1 },
                .orderSuccess t)
      | .fail => (st1, .orderFail t)
      | .exn => (st1, .orderFail t)

/-- `max_busy_count = 2`, hard-coded in `execute_investment`. -/
def maxBusyCount : ℕ := 2

/-- The candidate loop of `execute_investment` (UUAutoInvest.py lines
668-802): loop-top guards (`success_count >= max_orders`,
`busy_counter >= max_busy_count`) followed by the body.  Returns the final
state and the trace of outcomes of the candidates actually attempted. -/
def execute_investment_loop (cfg : InvestConfig) :
    List (InvestCandidate × CandEnv) → LoopState → LoopState × List Outcome
  | [], st => (st, [])
  | (c, e) :: rest, st =>
    if cfg.maxOrders ≤ st.successCount then (st, [])
    else if maxBusyCount ≤ st.busyCounter then (st, [])
    else
      ((execute_investment_loop cfg rest (invest_step cfg st c e).1).1,
       (invest_step cfg st c e).2 :: (execute_investment_loop cfg rest (invest_step cfg st c e).1).2)

/-- Number of successful orders in an outcome trace. -/
def countSuccess : List Outcome → ℕ
  | [] => 0
  | .orderSuccess _ :: r => countSuccess r + 1
  | _ :: r => countSuccess r

/-- Sum of the prices of the successful orders in an outcome trace. -/
def successSum : List Outcome → ℚ
  | [] => 0
  | .orderSuccess p :: r => p + successSum r
  | _ :: r => successSum r

/-- Durable-storage / order-API events of the execution loop.  The
vocabulary includes a signal-persistence event so that the write-ahead
property of the specification can be stated; the embedded loop never emits
one, because `execute_investment` contains no signal-log write. -/
inductive InvestEvent where
  | signalPersist
  | orderCall (price : ℚ)
deriving DecidableEq

/-- Events emitted by one candidate iteration.  A successful outcome in test
mode comes from the simulated branch (UUAutoInvest.py lines 763-770), which
makes no `publish_purchase_order` call, so it emits no order-placement
event; outside test mode both `orderSuccess` and `orderFail` correspond to
one real order-placement call. -/
def outcomeEvents (testMode : Bool) : Outcome → List InvestEvent
  | .orderSuccess p => if testMode = true then [] else [.orderCall p]
  | .orderFail p => [.orderCall p]
  | _ => []

/-- The ordered event trace of a run of the execution loop. -/
def runEvents (cfg : InvestConfig) (L : List (InvestCandidate × CandEnv)) (st : LoopState) :
    List InvestEvent :=
  ((execute_investment_loop cfg L st).2.map (outcomeEvents cfg.testMode)).flatten

/-- Contribution of one outcome to `success_count`. -/
def successIncr : Outcome → ℕ
  | .orderSuccess _ => 1
  | _ => 0

/-- Contribution of one outcome to the spent balance. -/
def successAmt : Outcome → ℚ
  | .orderSuccess p => p
  | _ => 0

lemma countSuccess_cons (o : Outcome) (r : List Outcome) :
    countSuccess (o :: r) = successIncr o + countSuccess r := by
  cases o <;> simp [countSuccess, successIncr] <;> omega

lemma successSum_cons (o : Outcome) (r : List Outcome) :
    successSum (o :: r) = successAmt o + successSum r := by
  cases o <;> simp [successSum, successAmt]

lemma invest_step_successCount (cfg : InvestConfig) (st : LoopState) (c : InvestCandidate)
    (e : CandEnv) :
    (invest_step cfg st c e).1.successCount =
      st.successCount + successIncr (invest_step cfg st c e).2 := by
  rcases e with ⟨f, o⟩
  cases f <;> cases o <;> simp only [invest_step] <;> (try split_ifs) <;> simp [successIncr]

lemma invest_step_balance (cfg : InvestConfig) (st : LoopState) (c : InvestCandidate)
    (e : CandEnv) :
    (invest_step cfg st c e).1.balance =
      st.balance - successAmt (invest_step cfg st c e).2 := by
  rcases e with ⟨f, o⟩
  cases f <;> cases o <;> simp only [invest_step] <;> (try split_ifs) <;> simp [successAmt]

lemma invest_step_attempt_le (cfg : InvestConfig) (st : LoopState) (c : InvestCandidate)
    (e : CandEnv) (q : ℚ)
    (h : (invest_step cfg st c e).2 = .orderSuccess q ∨ (invest_step cfg st c e).2 = .orderFail q) :
    q ≤ st.balance := by
  rcases e with ⟨f, o⟩
  cases f <;> cases o <;> simp only [invest_step] at h <;> (try split_ifs at h with h1 h2 h3) <;>
    simp_all <;> linarith

lemma invest_step_balance_nonneg (cfg : InvestConfig) (st : LoopState) (c : InvestCandidate)
    (e : CandEnv) (h : 0 ≤ st.balance) : 0 ≤ (invest_step cfg st c e).1.balance := by
  rcases e with ⟨f, o⟩
  cases f <;> cases o <;> simp only [invest_step] <;> (try split_ifs) <;> simp_all <;> linarith

lemma invest_step_busy_state (cfg : InvestConfig) (st : LoopState) (c : InvestCandidate)
    (e : CandEnv) (h : e.fetch = .busy) :
    invest_step cfg st c e = ({ st with busyCounter := st.busyCounter + 1 }, .busyResp) := by
  rcases e with ⟨f, o⟩
  cases f <;> simp_all [invest_step]

lemma invest_step_busy_of_outcome (cfg : InvestConfig) (st : LoopState) (c : InvestCandidate)
    (e : CandEnv) (h : (invest_step cfg st c e).2 = .busyResp) : e.fetch = .busy := by
  rcases e with ⟨f, o⟩
  cases f <;> cases o <;> simp only [invest_step] at h ⊢ <;> (try split_ifs at h) <;> simp_all

lemma execute_investment_loop_halt (cfg : InvestConfig) (L : List (InvestCandidate × CandEnv))
    (st : LoopState) (h : maxBusyCount ≤ st.busyCounter) :
    execute_investment_loop cfg L st = (st, []) := by
  cases L with
  | nil => rfl
  | cons a rest =>
    rcases a with ⟨c, e⟩
    simp only [execute_investment_loop]
    split_ifs <;> simp_all

lemma execute_investment_loop_successCount (cfg : InvestConfig) :
    ∀ (L : List (InvestCandidate × CandEnv)) (st : LoopState),
      (execute_investment_loop cfg L st).1.successCount =
        st.successCount + countSuccess (execute_investment_loop cfg L st).2 := by
  intro L
  induction L with
  | nil => intro st; simp [execute_investment_loop, countSuccess]
  | cons a rest ih =>
    intro st
    rcases a with ⟨c, e⟩
    simp only [execute_investment_loop]
    split_ifs with h1 h2
    · simp [countSuccess]
    · simp [countSuccess]
    · rw [countSuccess_cons, ih, invest_step_successCount]
      omega

lemma execute_investment_loop_balance (cfg : InvestConfig) :
    ∀ (L : List (InvestCandidate × CandEnv)) (st : LoopState),
      (execute_investment_loop cfg L st).1.balance =
        st.balance - successSum (execute_investment_loop cfg L st).2 := by
  intro L
  induction L with
  | nil => intro st; simp [execute_investment_loop, successSum]
  | cons a rest ih =>
    intro st
    rcases a with ⟨c, e⟩
    simp only [execute_investment_loop]
    split_ifs with h1 h2
    · simp [successSum]
    · simp [successSum]
    · rw [successSum_cons, ih, invest_step_balance]
      ring

lemma execute_investment_loop_balance_nonneg (cfg : InvestConfig) :
    ∀ (L : List (InvestCandidate × CandEnv)) (st : LoopState),
      0 ≤ st.balance → 0 ≤ (execute_investment_loop cfg L st).1.balance := by
  intro L
  induction L with
  | nil => intro st h; simpa [execute_investment_loop] using h
  | cons a rest ih =>
    intro st h
    rcases a with ⟨c, e⟩
    simp only [execute_investment_loop]
    split_ifs with h1 h2
    · simpa using h
    · simpa using h
    · exact ih _ (invest_step_balance_nonneg cfg st c e h)

lemma execute_investment_loop_busy_pair (cfg : InvestConfig) :
    ∀ (L : List (InvestCandidate × CandEnv)) (st : LoopState) (j : ℕ),
      ((execute_investment_loop cfg L st).2)[j]? = some .busyResp →
      ((execute_investment_loop cfg L st).2)[j+1]? = some .busyResp →
      ((execute_investment_loop cfg L st).2).length = j + 2 := by
  intro L
  induction L with
  | nil => intro st j h1 _; simp [execute_investment_loop] at h1
  | cons a rest ih =>
    intro st j h1 h2
    rcases a with ⟨c, e⟩
    simp only [execute_investment_loop] at h1 h2 ⊢
    split_ifs at h1 h2 ⊢ with hg1 hg2
    · simp at h1
    · simp at h1
    · cases j with
      | succ j' =>
        simp only [List.getElem?_cons_succ] at h1 h2
        have := ih (invest_step cfg st c e).1 j' h1 h2
        simp [this]
      | zero =>
        simp only [List.getElem?_cons_zero, Option.some.injEq] at h1
        simp only [zero_add, List.getElem?_cons_succ] at h2
        have hbusy : e.fetch = .busy := invest_step_busy_of_outcome cfg st c e h1
        have hstep := invest_step_busy_state cfg st c e hbusy
        cases rest with
        | nil =>
          rw [hstep] at h2
          simp [execute_investment_loop] at h2
        | cons a2 rest2 =>
          rcases a2 with ⟨c2, e2⟩
          rw [hstep] at h2 ⊢
          simp only [execute_investment_loop] at h2 ⊢
          split_ifs at h2 ⊢ with k1
          · simp at h2
          · simp only [List.getElem?_cons_zero, Option.some.injEq] at h2
            have hbusy2 : e2.fetch = .busy := invest_step_busy_of_outcome _ _ _ _ h2
            have hstep2 := invest_step_busy_state cfg
              { st with busyCounter := st.busyCounter + 1 } c2 e2 hbusy2
            have hhalt := execute_investment_loop_halt cfg rest2
              { st with busyCounter := st.busyCounter + 1 + 1 }
              (by dsimp only [maxBusyCount]; omega)
            simp [hstep2, hhalt]


example :
    invest_step ⟨100, 2000, 5, 0.9, false⟩ ⟨0, 0, 1000⟩
      ⟨"1", "n", true, none, some 105, none⟩ ⟨.ok ⟨"c", "h", (104.99 : ℚ)⟩, .ok⟩ =
    (⟨0, 0, 1000⟩, .skipGate) := by
  norm_num [invest_step, compute_target_price, pyOrQ]

example :
    (execute_investment_loop ⟨100, 2000, 5, 0.9, false⟩
      [(⟨"1", "n", true, none, some 105, none⟩, ⟨.busy, .ok⟩),
       (⟨"1", "n", true, none, some 105, none⟩, ⟨.busy, .ok⟩),
       (⟨"1", "n", true, none, some 105, none⟩, ⟨.ok ⟨"c", "h", 200⟩, .ok⟩)]
      ⟨0, 0, 1000⟩).2 = [.busyResp, .busyResp] := by
  norm_num [execute_investment_loop, invest_step, maxBusyCount]

lemma countSuccess_append (l1 l2 : List Outcome) :
    countSuccess (l1 ++ l2) = countSuccess l1 + countSuccess l2 := by
  induction l1 with
  | nil => simp [countSuccess]
  | cons o r ih => rw [List.cons_append, countSuccess_cons, countSuccess_cons, ih]; omega

lemma outcome_singleton_of_length_one (l : List Outcome) (a : Outcome)
    (hl : l.length = 1) (h : l[0]? = some a) : l = [a] := by
  cases l with
  | nil => simp at hl
  | cons x xs =>
    cases xs with
    | nil => simp at h; simp [h]
    | cons y ys => simp at hl

/-- C1: in a run of the execution loop started with fresh counters
(`success_count = busy_counter = 0`), if two consecutively attempted
candidates are both classified as system-busy (adjacent `busyResp` entries in
the trace, hence no non-busy outcome between them), the circuit breaker
terminates the run before any further candidate is attempted — the trace ends
with these two entries — and the final `success_count` equals the number of
successful orders placed strictly before the second busy response. -/
theorem c1_circuit_breaker_two_busy (cfg : InvestConfig) (b : ℚ)
    (L : List (InvestCandidate × CandEnv)) (j : ℕ)
    (h1 : ((execute_investment_loop cfg L ⟨0, 0, b⟩).2)[j]? = some .busyResp)
    (h2 : ((execute_investment_loop cfg L ⟨0, 0, b⟩).2)[j+1]? = some .busyResp) :
    ((execute_investment_loop cfg L ⟨0, 0, b⟩).2).length = j + 2 ∧
    (execute_investment_loop cfg L ⟨0, 0, b⟩).1.successCount =
      countSuccess (((execute_investment_loop cfg L ⟨0, 0, b⟩).2).take (j+1)) := by
  have hlen := execute_investment_loop_busy_pair cfg L ⟨0, 0, b⟩ j h1 h2
  refine ⟨hlen, ?_⟩
  have hcount := execute_investment_loop_successCount cfg L ⟨0, 0, b⟩
  have hdrop : ((execute_investment_loop cfg L ⟨0, 0, b⟩).2).drop (j+1) = [.busyResp] := by
    apply outcome_singleton_of_length_one _ _ (by simp [hlen])
    rw [List.getElem?_drop]
    simpa using h2
  have hsplit := List.take_append_drop (j+1) (execute_investment_loop cfg L ⟨0, 0, b⟩).2
  have : countSuccess (execute_investment_loop cfg L ⟨0, 0, b⟩).2 =
      countSuccess (((execute_investment_loop cfg L ⟨0, 0, b⟩).2).take (j+1)) := by
    conv_lhs => rw [← hsplit]
    rw [countSuccess_append, hdrop]
    simp [countSuccess]
  rw [hcount, this]
  simp

/-- C1 witness: a concrete run with two immediate busy answers stops after
exactly those two attempts with zero successes. -/
theorem c1_circuit_breaker_two_busy_witness :
    ((execute_investment_loop ⟨100, 2000, 5, 0.9, false⟩
        [(⟨"1", "n", true, none, some 105, none⟩, ⟨.busy, .ok⟩),
         (⟨"1", "n", true, none, some 105, none⟩, ⟨.busy, .ok⟩),
         (⟨"1", "n", true, none, some 105, none⟩, ⟨.ok ⟨"c", "h", 200⟩, .ok⟩)]
        ⟨0, 0, 1000⟩).2).length = 0 + 2 ∧
    (execute_investment_loop ⟨100, 2000, 5, 0.9, false⟩
        [(⟨"1", "n", true, none, some 105, none⟩, ⟨.busy, .ok⟩),
         (⟨"1", "n", true, none, some 105, none⟩, ⟨.busy, .ok⟩),
         (⟨"1", "n", true, none, some 105, none⟩, ⟨.ok ⟨"c", "h", 200⟩, .ok⟩)]
        ⟨0, 0, 1000⟩).1.successCount =
      countSuccess (((execute_investment_loop ⟨100, 2000, 5, 0.9, false⟩
        [(⟨"1", "n", true, none, some 105, none⟩, ⟨.busy, .ok⟩),
         (⟨"1", "n", true, none, some 105, none⟩, ⟨.busy, .ok⟩),
         (⟨"1", "n", true, none, some 105, none⟩, ⟨.ok ⟨"c", "h", 200⟩, .ok⟩)]
        ⟨0, 0, 1000⟩).2).take 1) :=
  c1_circuit_breaker_two_busy ⟨100, 2000, 5, 0.9, false⟩ 1000
    [(⟨"1", "n", true, none, some 105, none⟩, ⟨.busy, .ok⟩),
     (⟨"1", "n", true, none, some 105, none⟩, ⟨.busy, .ok⟩),
     (⟨"1", "n", true, none, some 105, none⟩, ⟨.ok ⟨"c", "h", 200⟩, .ok⟩)] 0
    (by norm_num [execute_investment_loop, invest_step, maxBusyCount])
    (by norm_num [execute_investment_loop, invest_step, maxBusyCount])

/-- C9: throughout a run of the execution loop an order is attempted only
when its target price is at most the locally tracked remaining balance, and
the balance is decremented by the target price after each successful order;
hence the sum of the target prices of the orders placed in a run started with
balance `b ≥ 0` never exceeds `b`. -/
theorem c9_balance_never_overspent (cfg : InvestConfig) (b : ℚ)
    (L : List (InvestCandidate × CandEnv)) (hb : 0 ≤ b) :
    successSum (execute_investment_loop cfg L ⟨0, 0, b⟩).2 ≤ b ∧
    ∀ (st : LoopState) (c : InvestCandidate) (e : CandEnv) (q : ℚ),
      ((invest_step cfg st c e).2 = .orderSuccess q ∨ (invest_step cfg st c e).2 = .orderFail q) →
      q ≤ st.balance := by
  constructor
  · have hbal := execute_investment_loop_balance cfg L ⟨0, 0, b⟩
    have hpos := execute_investment_loop_balance_nonneg cfg L ⟨0, 0, b⟩ hb
    dsimp only at hbal
    linarith
  · intro st c e q h
    exact invest_step_attempt_le cfg st c e q h

/-- C9 witness: in a concrete run (balance 1000, one successful order at
price 105) the spent sum is bounded by the starting balance. -/
theorem c9_balance_never_overspent_witness :
    successSum (execute_investment_loop ⟨100, 2000, 5, 0.9, false⟩
      [(⟨"1", "n", true, none, some 105, none⟩, ⟨.ok ⟨"c", "h", 200⟩, .ok⟩)]
      ⟨0, 0, 1000⟩).2 ≤ 1000 :=
  (c9_balance_never_overspent ⟨100, 2000, 5, 0.9, false⟩ 1000
    [(⟨"1", "n", true, none, some 105, none⟩, ⟨.ok ⟨"c", "h", 200⟩, .ok⟩)]
    (by norm_num)).1

/-- C2 (amended): the pre-trade price gate of `execute_investment` admits no
tolerance — for a candidate whose detail fetch succeeded, the order is
skipped by the gate exactly when the computed target price is greater than or
equal to the freshly fetched live reference price.  In particular target 105
against live 100 fails the gate, and target 105 against live 104.99 fails it
as well. -/
theorem c2_price_gate_strict (cfg : InvestConfig) (st : LoopState) (c : InvestCandidate)
    (d : ItemDetail) (o : OrderResult) :
    (invest_step cfg st c ⟨.ok d, o⟩).2 = .skipGate ↔
      d.lowestPrice ≤ compute_target_price cfg c d.lowestPrice := by
  cases o <;> simp only [invest_step] <;> split_ifs <;> simp_all

/-- C2 counterexample: with whitelist target price 105 and live reference
price 104.99 the target exceeds the live price by 0.01 — well within the
claimed 1% tolerance — yet the gate skips the order instead of passing it. -/
theorem c2_tolerance_passes_counterexample :
    (invest_step ⟨100, 2000, 5, 0.9, false⟩ ⟨0, 0, 1000⟩
      ⟨"1", "n", true, none, some 105, none⟩ ⟨.ok ⟨"c", "h", 104.99⟩, .ok⟩).2 =
      .skipGate ∧
    ((105 : ℚ) - 104.99) ≤ (1/100) * 104.99 := by
  constructor
  · norm_num [invest_step, compute_target_price, pyOrQ]
  · norm_num

/-- C5 (amended): the execution loop performs no signal persistence at all —
its event trace never contains a signal-persistence event (the source has no
signal-log write), so order placements are never preceded by a durable write
of the Signal. -/
theorem c5_no_signal_persistence (cfg : InvestConfig)
    (L : List (InvestCandidate × CandEnv)) (st : LoopState) :
    InvestEvent.signalPersist ∉ runEvents cfg L st := by
  intro hmem
  rw [runEvents, List.mem_flatten] at hmem
  obtain ⟨l, hl, hin⟩ := hmem
  rw [List.mem_map] at hl
  obtain ⟨o, _, rfl⟩ := hl
  cases o <;> simp only [outcomeEvents] at hin <;> (try split_ifs at hin) <;> simp_all

/-- C5 counterexample: a concrete non-test-mode run whose first event is a
real order-placement call (`publish_purchase_order` answered `Code == 0`)
with no preceding signal-persistence event, falsifying the write-ahead claim
on the code. -/
theorem c5_write_ahead_counterexample :
    ¬ (∀ (k : ℕ) (p : ℚ),
        (runEvents ⟨100, 2000, 5, 0.9, false⟩
          [(⟨"1", "n", true, none, some 105, none⟩, ⟨.ok ⟨"c", "h", 200⟩, .ok⟩)]
          ⟨0, 0, 1000⟩)[k]? = some (.orderCall p) →
        ∃ j, j < k ∧
          (runEvents ⟨100, 2000, 5, 0.9, false⟩
            [(⟨"1", "n", true, none, some 105, none⟩, ⟨.ok ⟨"c", "h", 200⟩, .ok⟩)]
            ⟨0, 0, 1000⟩)[j]? = some .signalPersist) := by
  intro h
  obtain ⟨j, hj, _⟩ := h 0 105
    (by norm_num [runEvents, execute_investment_loop, invest_step, compute_target_price,
          pyOrQ, outcomeEvents, maxBusyCount])
  omega

/-- BindState of the CSQAQ connection state machine (Scanner.py lines 37-43). -/
inductive BindState where
  | UNBOUND
  | BINDING
  | BOUND
  | COOLDOWN
  | INVALID
deriving DecidableEq

/-- The connection-relevant mutable fields of `CSQAQScanner`: `self.state`,
`self.cooldown_end_time`, `self.last_bind_time`.  (`last_bind_ip` only feeds
log lines and is omitted.) -/
structure ScannerState where
  state : BindState
  cooldown_end_time : ℚ
  last_bind_time : ℚ
deriving DecidableEq

/-- An HTTP answer to the bind endpoint: status code plus the body's
business `code` (meaningful when the body is parsed, i.e. on HTTP 200). -/
structure HttpAnswer where
  status : ℕ
  code : ℤ
deriving DecidableEq

/-- `CSQAQScanner.trigger_cooldown` (Scanner.py lines 299-306). -/
def trigger_cooldown (st : ScannerState) (now seconds : ℚ) : ScannerState :=
  { st with state := .COOLDOWN, cooldown_end_time := now + seconds }

/-- `CSQAQScanner._perform_bind` (Scanner.py lines 235-297).  `resp = none`
is the exception path.  Returns the new state and the boolean result. -/
def perform_bind (st : ScannerState) (hasToken : Bool) (now : ℚ)
    (resp : Option HttpAnswer) : ScannerState × Bool :=
  let st0 := { st with state := BindState.BINDING }
  if hasToken = false then ({ st0 with state := .INVALID }, false)
  else
    match resp with
    | none => (trigger_cooldown st0 now 60, false)
    | some r =>
      if r.status = 200 then
        if r.code = 200 then ({ st0 with state := .BOUND, last_bind_time := now }, true)
        else if r.code = 429 then ({ st0 with state := .BOUND, last_bind_time := now }, true)
        else (trigger_cooldown st0 now 60, false)
      else if r.status = 429 then ({ st0 with state := .BOUND, last_bind_time := now }, true)
      else if r.status = 401 ∨ r.status = 403 then ({ st0 with state := .INVALID }, false)
      else (trigger_cooldown st0 now 60, false)

/-- `CSQAQScanner.check_state` (Scanner.py lines 211-233).  Returns the new
state, whether requests are allowed, and whether a network (bind) call was
made. -/
def check_state (st : ScannerState) (hasToken : Bool) (now : ℚ)
    (resp : Option HttpAnswer) : ScannerState × Bool × Bool :=
  if st.state = .INVALID then (st, false, false)
  else
    let st1 := if st.state = .COOLDOWN ∧ ¬ (0 < st.cooldown_end_time - now) then
                 { st with state := BindState.UNBOUND } else st
    if st1.state = .COOLDOWN then (st1, false, false)
    else if st1.state = .UNBOUND then
      ((perform_bind st1 hasToken now resp).1, (perform_bind st1 hasToken now resp).2, hasToken)
    else (st1, true, false)

/-- `CSQAQScanner.bind_local_ip` (Scanner.py lines 308-371).  It never
touches `self.state`, only `last_bind_time`.  `resp = none` is the exception
path. -/
def bind_local_ip (st : ScannerState) (hasToken force : Bool) (now : ℚ)
    (resp : Option HttpAnswer) : ScannerState × Bool :=
  if hasToken = false then (st, false)
  else if force = false ∧ now - st.last_bind_time < 35 then (st, true)
  else
    match resp with
    | none => (st, false)
    | some r =>
      if r.status = 429 then ({ st with last_bind_time := now }, true)
      else if ¬ (r.status = 200) then (st, false)
      else if r.code = 200 then ({ st with last_bind_time := now }, true)
      else if r.code = 429 then ({ st with last_bind_time := now }, true)
      else (st, false)

/-- The numeric fields of the `/info/good` payload used by `run_scan`. -/
structure GoodsData where
  yyyp_lease_num : ℤ
  yyyp_sell_num : ℤ
  yyyp_lease_price : ℚ
  yyyp_buy_price : ℚ
  yyyp_sell_price : ℚ
  yyyp_lease_annual : ℚ
  buff_sell_price : ℚ
deriving DecidableEq

/-- One response to a `get_item_details` request: HTTP status, body code and
the parsed `goods_info` payload (`none` when the payload is empty). -/
structure DetailAnswer where
  status : ℕ
  code : ℤ
  goods : Option GoodsData
deriving DecidableEq

/-- Environment of one retry iteration of `get_item_details`: the primary
response (`none` = network exception), the fallback `good_id`-parameter
response used when the primary returns 400/404, and the answer to
`bind_local_ip` when a 401 triggers the one-off re-bind. -/
structure DetailAttemptEnv where
  r1 : Option DetailAnswer
  r2 : Option DetailAnswer
  bindResp : Option HttpAnswer

/-- The one-off re-bind performed by `get_item_details` when a 401 arrives on
the first retry and the last bind is older than 60 seconds (Scanner.py lines
517-533 and 565-577). -/
def detail_401_rebind (st : ScannerState) (hasToken : Bool) (now : ℚ) (k : ℕ)
    (bindResp : Option HttpAnswer) : ScannerState :=
  if k = 0 ∧ (st.last_bind_time = 0 ∨ 60 < now - st.last_bind_time) then
    (bind_local_ip st hasToken true now bindResp).1
  else st

/-- Body-parsing stage of one `get_item_details` retry (Scanner.py lines
553-598): `(st, none)` = continue with the next retry, `(st, some r)` =
return `r`. -/
def detail_parse (st : ScannerState) (hasToken : Bool) (now : ℚ) (k : ℕ)
    (bindResp : Option HttpAnswer) (resp : DetailAnswer) :
    ScannerState × Option (Option GoodsData) :=
  if ¬ (resp.code = 200 ∨ resp.code = 201) then
    if resp.code = 429 then (st, none)
    else if resp.code = 401 then (detail_401_rebind st hasToken now k bindResp, none)
    else if k < 4 then (st, none) else (st, some none)
  else
    match resp.goods with
    | none => if k < 4 then (st, none) else (st, some none)
    | some g => (st, some (some g))

/-- One retry iteration of `CSQAQScanner.get_item_details` (Scanner.py lines
484-621), retry index `k`. -/
def detail_attempt (st : ScannerState) (hasToken : Bool) (now : ℚ) (k : ℕ)
    (env : DetailAttemptEnv) : ScannerState × Option (Option GoodsData) :=
  match env.r1 with
  | none => if k < 4 then (st, none) else (st, some none)
  | some a =>
    if a.status = 429 then (st, none)
    else if a.status = 401 then (detail_401_rebind st hasToken now k env.bindResp, none)
    else if ¬ (a.status = 200) then
      if a.status = 404 ∨ a.status = 400 then
        match env.r2 with
        | none => if k < 4 then (st, none) else (st, some none)
        | some b =>
          if ¬ (b.status = 200) then
            if k < 4 then (st, none) else (st, some none)
          else detail_parse st hasToken now k env.bindResp b
      else if k < 4 then (st, none) else (st, some none)
    else detail_parse st hasToken now k env.bindResp a

/-- The retry loop of `get_item_details`. -/
def get_item_details_loop (hasToken : Bool) (now : ℚ) :
    List DetailAttemptEnv → ScannerState → ℕ → ScannerState × Option GoodsData
  | [], st, _ => (st, none)
  | env :: rest, st, k =>
    match detail_attempt st hasToken now k env with
    | (st1, some r) => (st1, r)
    | (st1, none) => get_item_details_loop hasToken now rest st1 (k + 1)

/-- `CSQAQScanner.get_item_details` (Scanner.py lines 468-623): up to five
retries over the supplied per-attempt environments. -/
def get_item_details (st : ScannerState) (hasToken : Bool) (now : ℚ)
    (envs : List DetailAttemptEnv) : ScannerState × Option GoodsData :=
  get_item_details_loop hasToken now (envs.take 5) st 0

lemma bind_local_ip_state (st : ScannerState) (hasToken force : Bool) (now : ℚ)
    (resp : Option HttpAnswer) :
    (bind_local_ip st hasToken force now resp).1.state = st.state := by
  cases resp <;> simp only [bind_local_ip] <;> split_ifs <;> rfl

lemma detail_401_rebind_state (st : ScannerState) (hasToken : Bool) (now : ℚ) (k : ℕ)
    (bindResp : Option HttpAnswer) :
    (detail_401_rebind st hasToken now k bindResp).state = st.state := by
  simp only [detail_401_rebind]
  split_ifs
  · exact bind_local_ip_state st hasToken true now bindResp
  · rfl

lemma detail_parse_state (st : ScannerState) (hasToken : Bool) (now : ℚ) (k : ℕ)
    (bindResp : Option HttpAnswer) (resp : DetailAnswer) :
    (detail_parse st hasToken now k bindResp resp).1.state = st.state := by
  rcases resp with ⟨s, c, g⟩
  cases g <;> simp only [detail_parse] <;> split_ifs <;>
    first
    | rfl
    | exact detail_401_rebind_state st hasToken now k bindResp

lemma detail_attempt_state (st : ScannerState) (hasToken : Bool) (now : ℚ) (k : ℕ)
    (env : DetailAttemptEnv) :
    (detail_attempt st hasToken now k env).1.state = st.state := by
  rcases env with ⟨r1, r2, bindResp⟩
  cases r1 with
  | none => simp only [detail_attempt]; split_ifs <;> rfl
  | some a =>
    cases r2 <;> simp only [detail_attempt] <;> split_ifs <;>
      first
      | rfl
      | exact detail_401_rebind_state st hasToken now k bindResp
      | exact detail_parse_state st hasToken now k bindResp _

lemma get_item_details_loop_state (hasToken : Bool) (now : ℚ) :
    ∀ (envs : List DetailAttemptEnv) (st : ScannerState) (k : ℕ),
      (get_item_details_loop hasToken now envs st k).1.state = st.state := by
  intro envs
  induction envs with
  | nil => intro st k; rfl
  | cons env rest ih =>
    intro st k
    simp only [get_item_details_loop]
    have hstep := detail_attempt_state st hasToken now k env
    rcases h : detail_attempt st hasToken now k env with ⟨st1, r⟩
    rw [h] at hstep
    cases r with
    | some r0 => simpa using hstep
    | none => exact (ih st1 (k + 1)).trans hstep

lemma perform_bind_invalid_cases (st : ScannerState) (hasToken : Bool) (now : ℚ)
    (resp : Option HttpAnswer)
    (h : (perform_bind st hasToken now resp).1.state = .INVALID) :
    hasToken = false ∨ ∃ r, resp = some r ∧ (r.status = 401 ∨ r.status = 403) := by
  cases resp <;> simp only [perform_bind, trigger_cooldown] at h <;>
    split_ifs at h <;> simp_all

/-- C6: the bind machine enters `INVALID` only through a bind attempt that is
answered HTTP 401/403 or made with a missing token: (1) a data request
(`get_item_details`) never changes the bind state, whatever its responses —
in particular three consecutive 401 answers while `BOUND` leave the state
`BOUND`; (2) `check_state` can move the state to `INVALID` only when it
already was `INVALID`, the token is missing, or the bind answer is HTTP
401/403; (3) once `INVALID`, `check_state` refuses without a network call and
the state never leaves `INVALID`. -/
theorem c6_invalid_only_from_bind :
    (∀ (st : ScannerState) (hasToken : Bool) (now : ℚ) (envs : List DetailAttemptEnv),
        (get_item_details st hasToken now envs).1.state = st.state) ∧
    (∀ (st : ScannerState) (hasToken : Bool) (now : ℚ) (resp : Option HttpAnswer),
        (check_state st hasToken now resp).1.state = .INVALID →
        st.state = .INVALID ∨ hasToken = false ∨
          ∃ r, resp = some r ∧ (r.status = 401 ∨ r.status = 403)) ∧
    (∀ (st : ScannerState) (hasToken : Bool) (now : ℚ) (resp : Option HttpAnswer),
        st.state = .INVALID → check_state st hasToken now resp = (st, false, false)) := by
  refine ⟨?_, ?_, ?_⟩
  · intro st hasToken now envs
    exact get_item_details_loop_state hasToken now (envs.take 5) st 0
  · intro st hasToken now resp h
    by_cases hst : st.state = .INVALID
    · exact Or.inl hst
    · simp only [check_state, hst, if_false] at h
      split_ifs at h <;>
        first
        | exact Or.inr (perform_bind_invalid_cases _ _ _ _ h)
        | simp_all
  · intro st hasToken now resp h
    simp [check_state, h]

/-- C6 witness: three consecutive 401 answers on a detail request leave a
`BOUND` machine `BOUND`, and `check_state` from `INVALID` is a cached
refusal with no network call. -/
theorem c6_invalid_only_from_bind_witness :
    (get_item_details ⟨.BOUND, 0, 0⟩ true 100
      [⟨some ⟨401, 0, none⟩, none, some ⟨200, 200⟩⟩,
       ⟨some ⟨401, 0, none⟩, none, some ⟨200, 200⟩⟩,
       ⟨some ⟨401, 0, none⟩, none, some ⟨200, 200⟩⟩]).1.state = BindState.BOUND ∧
    check_state ⟨.INVALID, 0, 0⟩ true 0 (some ⟨200, 200⟩) =
      (⟨.INVALID, 0, 0⟩, false, false) :=
  ⟨c6_invalid_only_from_bind.1 ⟨.BOUND, 0, 0⟩ true 100
      [⟨some ⟨401, 0, none⟩, none, some ⟨200, 200⟩⟩,
       ⟨some ⟨401, 0, none⟩, none, some ⟨200, 200⟩⟩,
       ⟨some ⟨401, 0, none⟩, none, some ⟨200, 200⟩⟩],
   c6_invalid_only_from_bind.2.2 ⟨.INVALID, 0, 0⟩ true 0 (some ⟨200, 200⟩) rfl⟩

/-- C7 (amended): a bind attempt with a token in hand moves the machine to
`BOUND` on success and also on rate-limit answers (HTTP 429 and business code
429 are deliberately treated as success), to `INVALID` exactly on HTTP
401/403, and to `COOLDOWN` on every remaining failure (other HTTP statuses,
other body codes on HTTP 200, and exceptions). -/
theorem c7_bind_transition_cases (st : ScannerState) (now : ℚ) (resp : Option HttpAnswer) :
    ((perform_bind st true now resp).1.state = .BOUND ↔
      ∃ r, resp = some r ∧
        ((r.status = 200 ∧ (r.code = 200 ∨ r.code = 429)) ∨
         (¬ r.status = 200 ∧ r.status = 429))) ∧
    ((perform_bind st true now resp).1.state = .INVALID ↔
      ∃ r, resp = some r ∧ ¬ r.status = 200 ∧ ¬ r.status = 429 ∧
        (r.status = 401 ∨ r.status = 403)) ∧
    ((perform_bind st true now resp).1.state = .COOLDOWN ↔
      (resp = none ∨
        ∃ r, resp = some r ∧
          ((r.status = 200 ∧ ¬ r.code = 200 ∧ ¬ r.code = 429) ∨
           (¬ r.status = 200 ∧ ¬ r.status = 429 ∧
            ¬ r.status = 401 ∧ ¬ r.status = 403)))) := by
  cases resp <;> simp only [perform_bind, trigger_cooldown] <;> split_ifs <;> simp_all <;> tauto

/-- C7 counterexample: from `UNBOUND`, a bind attempt answered HTTP 429 (the
rate-limit signal) lands in `BOUND`, not in `COOLDOWN` as the claim
requires. -/
theorem c7_rate_limit_to_bound_counterexample :
    (perform_bind ⟨.UNBOUND, 0, 0⟩ true 0 (some ⟨429, 0⟩)).1.state = .BOUND ∧
    ¬ (perform_bind ⟨.UNBOUND, 0, 0⟩ true 0 (some ⟨429, 0⟩)).1.state = .COOLDOWN := by
  constructor <;> simp [perform_bind]

/-- `CSQAQScanner.get_lease_stability`'s series computation (Scanner.py lines
712-738) on the fetched `main_data`: drop `None` entries, require at least 5
points, drop falsy (zero) values, and return the coefficient of variation
(population standard deviation over mean; `x ** 0.5` forces `Real.sqrt`).
`none` is the "no usable volatility" answer the caller sees. -/
noncomputable def get_lease_stability (main_data : List (Option ℚ)) : Option ℝ :=
  let prices := main_data.filterMap id
  if prices = [] ∨ prices.length < 5 then none
  else
    let prices_float := prices.filter (fun p => ¬ p = 0)
    if prices_float = [] then none
    else
      let avg : ℚ := prices_float.sum / prices_float.length
      if avg = 0 then some 0
      else
        let std : ℝ :=
          Real.sqrt ((((prices_float.map (fun x => ((x - avg : ℚ) : ℝ) ^ 2)).sum)) /
            (prices_float.length : ℝ))
        some (std / (avg : ℝ))

/-- Scanner configuration fields used by the per-record logic of `run_scan`
(`MIN_DAILY_RENT`, `MIN_LEASE_COUNT`, `MIN_LEASE_RATIO`, `MAX_VOLATILITY`,
the two 90-day drop floors, and the computed `batch_lease_avg`). -/
structure ScanConfig where
  minDailyRent : ℚ
  minLeaseCount : ℤ
  minLeaseShare : ℚ
  maxVolatility : ℚ
  minPriceDropSteady : ℚ
  minPriceDropAggressive : ℚ
  batchLeaseAvg : ℚ

/-- The rank-list fields of one record read by `run_scan` (lines 828-873). -/
structure RankRow where
  name : String
  sell_price_rate_90 : ℚ
  sell_price_rate_30 : ℚ
  sell_price_rate_7 : ℚ

/-- Python's `pat in hay` substring test. -/
def strContains (hay pat : String) : Bool := (hay.splitOn pat).length ≠ 1

/-- Heavy-asset name markers (Scanner.py line 849). -/
def heavyAssetMarkers : List String := ["★", "手套", "匕首", "刀", "蝴蝶", "爪子", "M9", "刺刀"]

/-- `is_heavy_asset` (Scanner.py line 849). -/
def is_heavy_asset (name : String) : Bool :=
  heavyAssetMarkers.any (fun x => strContains name x)

/-- Environment of one `run_scan` record iteration: the `check_state`
verdict, the `/info/good` payload, and the `/info/chart` `main_data` series
(`none` when the chart request failed outright). -/
structure ScanEnv where
  stateOk : Bool
  details : Option GoodsData
  chart : Option (List (Option ℚ))

/-- The guarded lease-ratio computation of `run_scan` (Scanner.py lines
937-940): when nothing is offered for sale the ratio is 0 and no division is
performed. -/
def lease_ratio_of (leaseNum sellNum : ℤ) : ℚ :=
  if sellNum > 0 then (leaseNum : ℚ) / (sellNum : ℚ) else 0

/-- `relative_heat = lease_num / max(1, batch_lease_avg)` (Scanner.py line
980). -/
def relative_heat_of (leaseNum : ℤ) (batchLeaseAvg : ℚ) : ℚ :=
  (leaseNum : ℚ) / max 1 batchLeaseAvg

open Classical in
/-- Tier assignment of `run_scan` (Scanner.py lines 978-1005): rules tried in
priority order, with the volatility-unknown override forcing `C`. -/
noncomputable def assign_tier (volatility_unknown : Bool) (volatility : ℝ)
    (relative_heat : ℚ) (daily_rent rate_90 rate_7 : ℚ) (is_uptrend : Bool)
    (lease_ratio : ℚ) : String :=
  let tier :=
    if volatility_unknown = false ∧ volatility < 0.15 ∧ relative_heat > 1.5 ∧
        daily_rent > 0.8 ∧ rate_90 > -10 then "S"
    else if is_uptrend = true ∧ relative_heat > 0.8 then "A"
    else if lease_ratio > 0.1 ∨ (rate_90 < -20 ∧ rate_7 > -2) then "B"
    else "C"
  if volatility_unknown = true then "C" else tier

/-- The whitelist entry built for an accepted record (numeric and tier
fields; string identifiers, timestamps, and display rounding of the stored
volatility are dropped).  `lease_volatility = none` encodes `"Unknown"`. -/
structure WhitelistEntry where
  tier : String
  roi : ℚ
  buy_limit : ℚ
  lease_num : ℤ
  sell_num : ℤ
  lease_ratio : ℚ
  lease_volatility : Option ℝ
  volatility_unknown : Bool
  relative_heat : ℚ
  is_uptrend : Bool

/-- Whitelist-entry construction for an accepted record (Scanner.py lines
966-1052). -/
noncomputable def scan_entry (cfg : ScanConfig) (item : RankRow) (d : GoodsData)
    (volatility_unknown : Bool) (volatility : ℝ) (is_uptrend : Bool) : WhitelistEntry :=
  let roi := d.yyyp_lease_annual / 100
  let buy_limit := if d.yyyp_buy_price > 0 then round2 (d.yyyp_buy_price + 1)
                   else round2 (d.yyyp_sell_price * 0.92)
  let relative_heat := relative_heat_of d.yyyp_lease_num cfg.batchLeaseAvg
  let lease_ratio := lease_ratio_of d.yyyp_lease_num d.yyyp_sell_num
  { tier := assign_tier volatility_unknown volatility relative_heat d.yyyp_lease_price
      item.sell_price_rate_90 item.sell_price_rate_7 is_uptrend lease_ratio
    roi := roi
    buy_limit := buy_limit
    lease_num := d.yyyp_lease_num
    sell_num := d.yyyp_sell_num
    lease_ratio := lease_ratio
    lease_volatility := if volatility_unknown = true then none else some volatility
    volatility_unknown := volatility_unknown
    relative_heat := relative_heat
    is_uptrend := is_uptrend }

/-- Per-record verdict of `run_scan`'s filter chain. -/
inductive ScanResult where
  | rejectedTrend
  | rejectedDecline
  | skippedState
  | rejectedNoDetail
  | rejectedRent
  | rejectedLeaseCount
  | rejectedShare
  | rejectedVolatility
  | accepted (e : WhitelistEntry)

open Classical in
/-- One record iteration of `CSQAQScanner.run_scan` (Scanner.py lines
828-1052): the trend checks on the rank row, the state-machine gate, the
detail lookup, the rent / lease-count / lease-ratio gates, the stability
check (insufficient data marks the volatility unknown instead of rejecting),
and tiering. -/
noncomputable def scan_process_item (cfg : ScanConfig) (item : RankRow) (env : ScanEnv) :
    ScanResult :=
  let rate_90 := item.sell_price_rate_90
  let rate_30 := item.sell_price_rate_30
  let rate_7 := item.sell_price_rate_7
  let heavy := is_heavy_asset item.name
  let min_price_drop := if heavy = true then cfg.minPriceDropAggressive else cfg.minPriceDropSteady
  if rate_90 < min_price_drop then .rejectedTrend
  else if rate_90 < -15 ∧ rate_7 < -5 then .rejectedDecline
  else
    let is_uptrend : Bool := decide (rate_30 > 0 ∧ rate_7 > 0)
    if env.stateOk = false then .skippedState
    else
      match env.details with
      | none => .rejectedNoDetail
      | some d =>
        let current_min_rent := if is_uptrend = true then (0.40 : ℚ) else cfg.minDailyRent
        if d.yyyp_lease_price < current_min_rent then .rejectedRent
        else if d.yyyp_lease_num < cfg.minLeaseCount then .rejectedLeaseCount
        else
          let lease_ratio := lease_ratio_of d.yyyp_lease_num d.yyyp_sell_num
          if lease_ratio < cfg.minLeaseShare then .rejectedShare
          else
            match env.chart.bind get_lease_stability with
            | none => .accepted (scan_entry cfg item d true (999.0 : ℝ) is_uptrend)
            | some v =>
              if v > (cfg.maxVolatility : ℝ) then .rejectedVolatility
              else .accepted (scan_entry cfg item d false v is_uptrend)

/-- Acceptance test on a scan verdict. -/
def ScanResult.isAccepted : ScanResult → Bool
  | .accepted _ => true
  | _ => false

/-- Tier of an accepted verdict. -/
def ScanResult.tierOf : ScanResult → Option String
  | .accepted e => some e.tier
  | _ => none

lemma assign_tier_unknown_c (v : ℝ) (h dr r9 r7 lr : ℚ) (u : Bool) :
    assign_tier true v h dr r9 r7 u lr = "C" := by
  simp [assign_tier]

/-- C3 (amended): a record whose historical series yields fewer than 5
usable points gets `None` from the stability computation, and `run_scan`
does not resolve that as a rejection: the record is never rejected at the
stability stage; if it passes the other gates it is accepted into the
whitelist, marked volatility-unknown and force-assigned tier `C`. -/
theorem c3_insufficient_history_not_rejected (cfg : ScanConfig) (item : RankRow)
    (env : ScanEnv) (md : List (Option ℚ))
    (hchart : env.chart = some md)
    (hshort : (md.filterMap id).length < 5) :
    get_lease_stability md = none ∧
    scan_process_item cfg item env ≠ .rejectedVolatility ∧
    (∀ e, scan_process_item cfg item env = .accepted e →
      e.tier = "C" ∧ e.volatility_unknown = true) := by
  have hnone : get_lease_stability md = none := by
    simp only [get_lease_stability]
    rw [if_pos (Or.inr hshort)]
  have hbind : env.chart.bind get_lease_stability = none := by
    rw [hchart]
    exact hnone
  refine ⟨hnone, ?_, ?_⟩
  · rcases hdets : env.details with _ | d <;>
      simp only [scan_process_item, hbind, hdets] <;>
      split_ifs <;>
      simp_all
  · intro e he
    rcases hdets : env.details with _ | d <;>
      simp only [scan_process_item, hbind, hdets] at he <;>
      split_ifs at he <;>
      simp_all [scan_entry, assign_tier_unknown_c] <;>
      (subst he; exact ⟨rfl, rfl⟩)

/-- C3 witness: with a three-point series the stability computation yields
`None` and the record is not rejected at the stability stage. -/
theorem c3_insufficient_history_not_rejected_witness :
    get_lease_stability [some 1, some 2, none] = none ∧
    scan_process_item ⟨0.5, 30, 0.15, 0.25, -30, -30, 30⟩ ⟨"AK-47 Redline", 0, 0, 0⟩
      ⟨true, some ⟨60, 100, 1, 500, 600, 30, 580⟩, some [some 1, some 2, none]⟩ ≠
      .rejectedVolatility :=
  ⟨(c3_insufficient_history_not_rejected ⟨0.5, 30, 0.15, 0.25, -30, -30, 30⟩
      ⟨"AK-47 Redline", 0, 0, 0⟩
      ⟨true, some ⟨60, 100, 1, 500, 600, 30, 580⟩, some [some 1, some 2, none]⟩
      [some 1, some 2, none] rfl (by decide)).1,
   (c3_insufficient_history_not_rejected ⟨0.5, 30, 0.15, 0.25, -30, -30, 30⟩
      ⟨"AK-47 Redline", 0, 0, 0⟩
      ⟨true, some ⟨60, 100, 1, 500, 600, 30, 580⟩, some [some 1, some 2, none]⟩
      [some 1, some 2, none] rfl (by decide)).2.1⟩

/-- C3 counterexample: a concrete record whose series holds only two usable
points is accepted into the whitelist — insufficient history is not resolved
as a rejection, contrary to the claim. -/
theorem c3_insufficient_history_accepted_counterexample :
    (([some (1 : ℚ), some 2, none].filterMap id).length < 5) ∧
    (scan_process_item ⟨0.5, 30, 0.15, 0.25, -30, -30, 30⟩ ⟨"AK-47 Redline", 0, 0, 0⟩
      ⟨true, some ⟨60, 100, 1, 500, 600, 30, 580⟩,
        some [some 1, some 2, none]⟩).isAccepted = true := by
  have hnone : get_lease_stability [some (1 : ℚ), some 2, none] = none := by
    simp only [get_lease_stability]
    rw [if_pos (Or.inr (by decide))]
  have hbind : (some [some (1 : ℚ), some 2, none]).bind get_lease_stability = none := hnone
  refine ⟨by decide, ?_⟩
  norm_num [scan_process_item, lease_ratio_of, hbind, ScanResult.isAccepted]

/-- C4 (amended): tier `S` is assigned exactly when volatility is known and
below 0.15, relative heat exceeds 1.5 times the batch average, daily rent
exceeds 0.8, and the 90-day trend is above −10 percent — not "non-negative":
a mildly negative 90-day trend still earns `S`. -/
theorem c4_tier_s_characterisation (u upt : Bool) (v : ℝ) (h dr r9 r7 lr : ℚ) :
    assign_tier u v h dr r9 r7 upt lr = "S" ↔
      (u = false ∧ v < 0.15 ∧ h > 1.5 ∧ dr > 0.8 ∧ r9 > -10) := by
  cases u <;> simp only [assign_tier] <;> split_ifs <;> simp_all <;> tauto

/-- C4 counterexample: known volatility 0.10, relative heat 2×, daily rent 1
and a negative 90-day trend of −5 percent still produce tier `S`,
contradicting the claim that `S` requires a non-negative medium-term
trend. -/
theorem c4_negative_trend_tier_s_counterexample :
    assign_tier false (0.10 : ℝ) 2 1 (-5) 0 false 0.6 = "S" ∧ (-5 : ℚ) < 0 := by
  refine ⟨?_, by norm_num⟩
  norm_num [assign_tier]

/-- C10: when no units are offered for sale the lease ratio is defined as 0
with the division guarded away, and consequently, for any positive
configured ratio floor, a record with zero offered count that reaches the
ratio stage is rejected by the ratio check — no division by zero can
occur. -/
theorem c10_zero_offered_rejected (cfg : ScanConfig) (item : RankRow)
    (env : ScanEnv) (d : GoodsData)
    (hfloor : 0 < cfg.minLeaseShare)
    (hdet : env.details = some d)
    (hok : env.stateOk = true)
    (hsell : d.yyyp_sell_num = 0)
    (h90s : cfg.minPriceDropSteady ≤ item.sell_price_rate_90)
    (h90a : cfg.minPriceDropAggressive ≤ item.sell_price_rate_90)
    (hdec : (-5 : ℚ) ≤ item.sell_price_rate_7)
    (hrent1 : cfg.minDailyRent ≤ d.yyyp_lease_price)
    (hrent2 : (0.40 : ℚ) ≤ d.yyyp_lease_price)
    (hcount : cfg.minLeaseCount ≤ d.yyyp_lease_num) :
    lease_ratio_of d.yyyp_lease_num d.yyyp_sell_num = 0 ∧
    scan_process_item cfg item env = .rejectedShare := by
  have hzero : lease_ratio_of d.yyyp_lease_num d.yyyp_sell_num = 0 := by
    simp [lease_ratio_of, hsell]
  refine ⟨hzero, ?_⟩
  simp only [scan_process_item, hdet, hok]
  split_ifs <;>
    first
      | rfl
      | (exfalso; linarith [hzero, hfloor])
      | (exfalso; omega)
      | (simp_all; done)

/-- C10 witness: a concrete record with zero offered units reaching the
ratio stage is rejected there, with the ratio evaluating to 0. -/
theorem c10_zero_offered_rejected_witness :
    lease_ratio_of 60 0 = 0 ∧
    scan_process_item ⟨0.5, 30, 0.15, 0.25, -30, -30, 30⟩ ⟨"AK-47 Redline", 0, 0, 0⟩
      ⟨true, some ⟨60, 0, 1, 500, 600, 30, 580⟩, none⟩ = .rejectedShare :=
  c10_zero_offered_rejected ⟨0.5, 30, 0.15, 0.25, -30, -30, 30⟩ ⟨"AK-47 Redline", 0, 0, 0⟩
    ⟨true, some ⟨60, 0, 1, 500, 600, 30, 580⟩, none⟩ ⟨60, 0, 1, 500, 600, 30, 580⟩
    (by norm_num) rfl rfl rfl (by norm_num) (by norm_num)
    (by norm_num) (by norm_num) (by norm_num) (by norm_num)

/-- Hunter configuration (ItemHunter.__init__, Hunter.py lines 38-46). -/
structure HunterConfig where
  minRoi : ℚ
  maxRoi : ℚ
  minSellNum : ℤ
  minLeaseNum : ℤ
  maxPricePremium : ℚ
  maxVolatility : ℚ
  minTrend90d : ℚ

/-- The rank-list fields of one record read by `analyze_item` and `hunt`
(`good_id` stands for `rank_item.get("good_id") or item_id`). -/
structure HRankRow where
  name : String
  good_id : Option ℤ
  yyyp_lease_annual : ℚ
  sell_price_rate_90 : ℚ
  sell_price_rate_7 : ℚ
  yyyp_sell_num : ℤ
  yyyp_lease_num : ℤ
  yyyp_sell_price : ℚ
  buff_sell_price : ℚ

/-- `goods_info` of the Hunter detail payload: the optional more-accurate
lease count (Hunter.py lines 263-266). -/
structure HGoodsInfo where
  yyyp_lease_num : Option ℤ

/-- One element of the `chart_data.price.90d` series: a dict carrying an
optional `value`/`price`, or a bare number (Hunter.py lines 198-205). -/
inductive ChartPoint where
  | dictVal (v : Option ℚ)
  | numVal (v : ℚ)

/-- Price extraction of `calculate_stability_score`: dict entries contribute
their value only when truthy (non-`None`, non-zero); bare numbers are taken
as they are. -/
def extract_prices : List ChartPoint → List ℚ
  | [] => []
  | .dictVal (some v) :: r => if v = 0 then extract_prices r else v :: extract_prices r
  | .dictVal none :: r => extract_prices r
  | .numVal v :: r => v :: extract_prices r

open Classical in
/-- `ItemHunter.calculate_stability_score` (Hunter.py lines 181-228):
`statistics.stdev` (sample standard deviation) forces `Real.sqrt`; its
`try/except` fallback only fires for fewer than two points, which the length
guard already excludes, so it is not modelled.  Returns (score, reason);
numeric interpolation inside the reason strings is dropped. -/
noncomputable def calculate_stability_score (cfg : HunterConfig)
    (chart_data : Option (List ChartPoint)) : ℝ × String :=
  match chart_data with
  | none => (0, "缺少K线数据")
  | some prices_90d =>
    if prices_90d = [] ∨ prices_90d.length < 10 then (0, "历史数据不足")
    else
      let prices := extract_prices prices_90d
      if prices.length < 10 then (0, "有效价格数据不足")
      else
        let avg : ℚ := prices.sum / prices.length
        if avg = 0 then (0, "平均价格为0")
        else
          let std : ℝ :=
            if 1 < prices.length then
              Real.sqrt ((((prices.map (fun x => ((x - avg : ℚ) : ℝ) ^ 2)).sum)) /
                ((prices.length : ℝ) - 1))
            else 0
          let volatility : ℝ := std / (avg : ℝ)
          if volatility > (cfg.maxVolatility : ℝ) then (0, "价格波动率过高")
          else (max 0 (100 - volatility * 500), "波动率")

/-- Qualifying-record row built by `analyze_item` (key numeric fields;
identifier strings and timestamps dropped). -/
structure QualifiedRow where
  roi : ℚ
  stability_score : ℝ
  target_buy_price : ℚ
  lease_sell_share : ℚ
  yyyp_lease_num : ℤ

open Classical in
/-- `ItemHunter.analyze_item` (Hunter.py lines 230-316): the ordered,
short-circuiting filter chain — ROI, 90-day trend, offered count, lease
count plus lease/sell share, stability score, cross-platform premium,
short-term swing — returning either a rejection reason or the qualified
row. -/
noncomputable def analyze_item (cfg : HunterConfig) (item : HRankRow)
    (detail_data : Option HGoodsInfo) (chart_data : Option (List ChartPoint)) :
    Option QualifiedRow × String :=
  if item.yyyp_lease_annual = 0 then (none, "缺少年化收益率数据")
  else
    let roi := item.yyyp_lease_annual / 100
    if ¬ (cfg.minRoi ≤ roi ∧ roi ≤ cfg.maxRoi) then (none, "ROI不达标")
    else if item.sell_price_rate_90 < cfg.minTrend90d then (none, "处于中长期下降通道")
    else if item.yyyp_sell_num < cfg.minSellNum then (none, "在售数量不足")
    else
      let lease_num :=
        match detail_data with
        | some g =>
          match g.yyyp_lease_num with
          | some n => n
          | none => item.yyyp_lease_num
        | none => item.yyyp_lease_num
      if lease_num < cfg.minLeaseNum then (none, "在租数量不足")
      else if item.yyyp_sell_num > 0 ∧
          (lease_num : ℚ) / (item.yyyp_sell_num : ℚ) < 0.1 then (none, "出租流动性差")
      else if (calculate_stability_score cfg chart_data).1 < 80 then (none, "价格波动太剧烈")
      else if item.buff_sell_price > 0 ∧
          (item.yyyp_sell_price - item.buff_sell_price) / item.buff_sell_price >
            cfg.maxPricePremium then (none, "UU溢价过高")
      else if item.sell_price_rate_7 < -3 ∨ item.sell_price_rate_7 > 3 then
        (none, "短期价格波动过大")
      else
        (some { roi := roi
                stability_score := (calculate_stability_score cfg chart_data).1
                target_buy_price := round2 (item.yyyp_sell_price * 0.90)
                lease_sell_share :=
                  if item.yyyp_sell_num > 0 then (lease_num : ℚ) / (item.yyyp_sell_num : ℚ)
                  else 0
                yyyp_lease_num := lease_num }, "合格")

/-- The per-record body of `ItemHunter.hunt` (Hunter.py lines 339-365): when
`good_id` is present, the detail and chart lookups are issued for the record
— two network calls — BEFORE `analyze_item` runs, whatever the analysis will
decide.  The second component counts those calls. -/
noncomputable def hunt_process_item (cfg : HunterConfig) (item : HRankRow)
    (detail_data : Option HGoodsInfo) (chart_data : Option (List ChartPoint)) :
    (Option QualifiedRow × String) × ℕ :=
  match item.good_id with
  | some _ => (analyze_item cfg item detail_data chart_data, 2)
  | none => (analyze_item cfg item none none, 0)

/-- C8 (amended): inside `analyze_item` the stages are evaluated in the fixed
order and rejection short-circuits — a record failing the ROI stage is
rejected with exactly the ROI reason whatever the detail and chart data say
(in particular when the stability stage would also fail), and a record
passing ROI but failing the trend stage gets exactly the trend reason; but
the detail and historical-series lookups are NOT skipped: `hunt` issues both
network calls for every record with a `good_id` before the analysis, even
when the record is rejected at the first stage. -/
theorem c8_stage_order_and_eager_lookups :
    (∀ (cfg : HunterConfig) (item : HRankRow) (d : Option HGoodsInfo)
        (c : Option (List ChartPoint)),
        ¬ item.yyyp_lease_annual = 0 →
        ¬ (cfg.minRoi ≤ item.yyyp_lease_annual / 100 ∧
           item.yyyp_lease_annual / 100 ≤ cfg.maxRoi) →
        analyze_item cfg item d c = (none, "ROI不达标")) ∧
    (∀ (cfg : HunterConfig) (item : HRankRow) (d : Option HGoodsInfo)
        (c : Option (List ChartPoint)),
        ¬ item.yyyp_lease_annual = 0 →
        (cfg.minRoi ≤ item.yyyp_lease_annual / 100 ∧
           item.yyyp_lease_annual / 100 ≤ cfg.maxRoi) →
        item.sell_price_rate_90 < cfg.minTrend90d →
        analyze_item cfg item d c = (none, "处于中长期下降通道")) ∧
    (∀ (cfg : HunterConfig) (item : HRankRow) (d : Option HGoodsInfo)
        (c : Option (List ChartPoint)),
        (hunt_process_item cfg item d c).2 = if item.good_id.isSome then 2 else 0) := by
  refine ⟨?_, ?_, ?_⟩
  · intro cfg item d c h0 h1
    simp only [analyze_item]
    rw [if_neg h0, if_pos h1]
  · intro cfg item d c h0 h1 h2
    simp only [analyze_item]
    rw [if_neg h0, if_neg (by simpa using h1), if_pos h2]
  · intro cfg item d c
    rcases hg : item.good_id with _ | g <;> simp [hunt_process_item, hg]

/-- C8 witness: a record with `good_id` whose ROI stage fails and whose chart
would also fail the stability stage is rejected with only the ROI reason,
while the two lookups are nevertheless counted for it. -/
theorem c8_stage_order_and_eager_lookups_witness :
    analyze_item ⟨0.25, 0.6, 100, 30, 0.15, 0.2, -10⟩
      ⟨"X", some 7, 10, 0, 0, 200, 50, 600, 580⟩ (some ⟨some 50⟩) (some []) =
      (none, "ROI不达标") ∧
    (hunt_process_item ⟨0.25, 0.6, 100, 30, 0.15, 0.2, -10⟩
      ⟨"X", some 7, 10, 0, 0, 200, 50, 600, 580⟩ (some ⟨some 50⟩) (some [])).2 =
      if (some (7 : ℤ)).isSome then 2 else 0 :=
  ⟨c8_stage_order_and_eager_lookups.1 ⟨0.25, 0.6, 100, 30, 0.15, 0.2, -10⟩
      ⟨"X", some 7, 10, 0, 0, 200, 50, 600, 580⟩ (some ⟨some 50⟩) (some [])
      (by norm_num) (by norm_num),
   c8_stage_order_and_eager_lookups.2.2 ⟨0.25, 0.6, 100, 30, 0.15, 0.2, -10⟩
      ⟨"X", some 7, 10, 0, 0, 200, 50, 600, 580⟩ (some ⟨some 50⟩) (some [])⟩

/-- C8 counterexample: a record rejected at the very first stage still costs
the two per-record network calls (detail and series lookup), because `hunt`
performs them before the analysis — "no network calls for stages never
reached" is false on the code. -/
theorem c8_eager_network_calls_counterexample :
    hunt_process_item ⟨0.25, 0.6, 100, 30, 0.15, 0.2, -10⟩
      ⟨"X", some 7, 10, 0, 0, 200, 50, 600, 580⟩ (some ⟨some 50⟩) (some []) =
      ((none, "ROI不达标"), 2) ∧ (2 : ℕ) ≠ 0 := by
  refine ⟨?_, by norm_num⟩
  norm_num [hunt_process_item, analyze_item]
